import Mathlib

/-!
Lyra front end, `FrontEnd/script.js`.

A shallow embedding of the browser script: the three click listeners that show
and hide the songs panel, and the `loadPlaylist` routine that fetches the file
listing once and logs it.

The host page and the network are the script's environment.  They enter the
model as parameters: the document the ids are looked up in, the inline
`display` value the panel has when the script starts, and the outcome of the
request.
-/

namespace Lyra

/-! ## The page -/

/-- A DOM element: a node identity and the value of its `id` attribute. -/
structure Element where
  nodeId : Nat
  id : String
deriving DecidableEq, Repr

/-- A node of the page tree: an element and the nodes inside it, in document
order. -/
inductive Node where
  | mk (element : Element) (children : List Node)

/-- The host page: the root node of its tree. -/
abbrev Document := Node

mutual
/-- The elements of a subtree in document order, the root of the subtree first. -/
def Node.elements : Node → List Element
  | .mk e cs => e :: elementsOfNodes cs
/-- The elements of a run of sibling subtrees in document order. -/
def elementsOfNodes : List Node → List Element
  | [] => []
  | c :: cs => c.elements ++ elementsOfNodes cs
end

/-- The lookup `document.getElementById(id)`: the first element in document order
carrying the id, `none` standing for `null`. -/
def getElementById (doc : Document) (id : String) : Option Element :=
  doc.elements.find? (fun e => decide (e.id = id))

mutual
/-- The elements above `target` inside a subtree, nearest first, when the subtree
holds `target`. -/
def Node.pathTo (target : Element) : Node → Option (List Element)
  | .mk e cs => if e = target then some [] else (pathAmong target cs).map (fun up => up ++ [e])
/-- The elements above `target` inside the first of a run of sibling subtrees that
holds it. -/
def pathAmong (target : Element) : List Node → Option (List Element)
  | [] => none
  | c :: cs =>
    match c.pathTo target with
    | some up => some up
    | none => pathAmong target cs
end

/-- The ancestors of an element in the page, nearest first. -/
def ancestors (doc : Document) (target : Element) : List Element :=
  (doc.pathTo target).getD []

/-- The part of the panel the script reads and writes: `songsTabRNR.style.display`,
the inline display value of the element with id `RockNRollSongs`. -/
structure Panel where
  display : String
deriving DecidableEq, Repr

/-- The panel is shown: its inline display is `'flex'`. -/
def Panel.visible (p : Panel) : Prop := p.display = "flex"

/-- The panel is hidden: its inline display is `'none'`. -/
def Panel.hidden (p : Panel) : Prop := p.display = "none"

instance (p : Panel) : Decidable p.visible := inferInstanceAs (Decidable (p.display = "flex"))

instance (p : Panel) : Decidable p.hidden := inferInstanceAs (Decidable (p.display = "none"))

/-! ## The three click listeners -/

/-- Listener of `RockNRollSongsBtn`: `songsTabRNR.style.display = 'flex'`. -/
def onOpenTriggered (p : Panel) : Panel :=
  { p with display := "flex" }

/-- Listener of `closeBtn`: `songsTabRNR.style.display = 'none'`. -/
def onCloseTriggered (p : Panel) : Panel :=
  { p with display := "none" }

/-- Listener of `window`:
`if (e.target === songsTabRNR) { songsTabRNR.style.display = 'none' }`. -/
def onOutsideClick (songsTabRNR : Element) (target : Element) (p : Panel) : Panel :=
  if target = songsTabRNR then { p with display := "none" } else p

/-! ## Event sequences -/

/-- The three event sources of the panel controller. -/
inductive Event where
  | openTrigger
  | closeTrigger
  | outsideClick (target : Element)
deriving DecidableEq, Repr

/-- One event applied to the panel: the listener that the event source runs. -/
def step (songsTabRNR : Element) (p : Panel) : Event → Panel
  | .openTrigger => onOpenTriggered p
  | .closeTrigger => onCloseTriggered p
  | .outsideClick target => onOutsideClick songsTabRNR target p

/-- A sequence of events applied in order, oldest first. -/
def run (songsTabRNR : Element) (p : Panel) (evs : List Event) : Panel :=
  evs.foldl (step songsTabRNR) p

/-- An event is relevant when its listener assigns the display: an open trigger,
a close trigger, or an outside click whose target is the panel container. -/
def isRelevant (songsTabRNR : Element) : Event → Bool
  | .openTrigger => true
  | .closeTrigger => true
  | .outsideClick target => decide (target = songsTabRNR)

/-- The most recent relevant event of a sequence, if there is one. -/
def lastRelevant (songsTabRNR : Element) (evs : List Event) : Option Event :=
  (evs.filter (isRelevant songsTabRNR)).getLast?

/-! ## Values, errors and promises -/

/-- A JavaScript value as far as the script handles one: a parsed JSON body, or
`undefined`.  Numbers are kept as integers; the script computes with none. -/
inductive JSValue where
  | undefined
  | null
  | bool (b : Bool)
  | number (n : Int)
  | string (s : String)
  | array (items : List JSValue)
  | object (fields : List (String × JSValue))

/-- A thrown value or rejection reason. -/
structure JSError where
  name : String
  message : String
deriving DecidableEq, Repr

/-- The state a promise is observed in once the event loop is idle. -/
inductive Settled (α : Type) where
  | pending
  | rejected (reason : JSError)
  | fulfilled (value : α)

/-- Property access `v[key]`: a `TypeError` on `undefined` and `null`, the field of
an object when it has one, `undefined` in every other case. -/
def getProperty (v : JSValue) (key : String) : Except JSError JSValue :=
  match v with
  | .undefined =>
    .error ⟨"TypeError", "Cannot read properties of undefined, reading " ++ key⟩
  | .null =>
    .error ⟨"TypeError", "Cannot read properties of null, reading " ++ key⟩
  | .object fields => .ok ((fields.lookup key).getD .undefined)
  | _ => .ok .undefined

/-! ## The runtime the script acts on -/

/-- What a listener is registered on. -/
inductive ListenerTarget where
  | element (e : Element)
  | window
deriving DecidableEq, Repr

/-- The three arrow functions the script registers. -/
inductive Handler where
  | onOpenTriggered
  | onCloseTriggered
  | onOutsideClick
deriving DecidableEq, Repr

/-- An outbound HTTP request. -/
structure Request where
  method : String
  url : String
deriving DecidableEq, Repr

/-- A response as the script uses it: the outcome of `res.json()`. -/
structure Response where
  json : Settled JSValue

/-- The backend as seen from the page: the outcome of `fetch` for a request. -/
abbrev Network := Request → Settled Response

/-- The effects of the script that outlive a statement: registered click
listeners, requests sent, values given to `console.log`, and rejections nobody
handled. -/
structure Runtime where
  listeners : List (ListenerTarget × Handler)
  requests : List Request
  console : List JSValue
  unhandled : List JSError

/-- The runtime before the script runs. -/
def Runtime.initial : Runtime :=
  { listeners := [], requests := [], console := [], unhandled := [] }

/-- The call `fetch(url)` with no options: a `GET` request for the URL. -/
def fetch (net : Network) (url : String) (rt : Runtime) : Runtime × Settled Response :=
  let req : Request := { method := "GET", url := url }
  ({ rt with requests := rt.requests ++ [req] }, net req)

/-- The call `console.log(v)`. -/
def consoleLog (v : JSValue) (rt : Runtime) : Runtime :=
  { rt with console := rt.console ++ [v] }

/-- The async function `loadPlaylist`: the runtime it leaves and the state of the
promise it returned. -/
def loadPlaylist (net : Network) (rt : Runtime) : Runtime × Settled JSValue :=
  let folderId := "YOUR_FOLDER_ID"
  match fetch net ("/api/files?folderId=" ++ folderId ++ "&audioOnly=true") rt with
  | (rt1, .pending) => (rt1, .pending)
  | (rt1, .rejected reason) => (rt1, .rejected reason)
  | (rt1, .fulfilled res) =>
    match res.json with
    | .pending => (rt1, .pending)
    | .rejected reason => (rt1, .rejected reason)
    | .fulfilled data =>
      match getProperty data "files" with
      | .error reason => (rt1, .rejected reason)
      | .ok files => (consoleLog files rt1, .fulfilled .undefined)

/-- The call `addEventListener('click', h)` on an element. -/
def addEventListener (target : ListenerTarget) (h : Handler) (rt : Runtime) : Runtime :=
  { rt with listeners := rt.listeners ++ [(target, h)] }

/-- The error of calling a method on `null`. -/
def nullReceiver (method : String) : JSError :=
  ⟨"TypeError", "Cannot read properties of null, reading " ++ method⟩

/-- Evaluation of the script, statement by statement: the lookups, the three
registrations (a registration on a missing button throws and ends the
evaluation), and the call of `loadPlaylist`, whose promise is dropped.  The
lookup of the panel has no effect at this point: the listeners read its result
when they run, and `runHandler` takes it as `songsTabRNR`.  The result is the
runtime left behind and the exception that ended the evaluation, if one did. -/
def script (doc : Document) (net : Network) (rt : Runtime) : Runtime × Option JSError :=
  let RockNRollSongsBtn := getElementById doc "RockNRollPlaylist"
  let closeBtn := getElementById doc "closeBtn"
  match RockNRollSongsBtn with
  | none => (rt, some (nullReceiver "addEventListener"))
  | some openEl =>
    let rt1 := addEventListener (.element openEl) .onOpenTriggered rt
    match closeBtn with
    | none => (rt1, some (nullReceiver "addEventListener"))
    | some closeEl =>
      let rt2 := addEventListener (.element closeEl) .onCloseTriggered rt1
      let rt3 := addEventListener .window .onOutsideClick rt2
      match loadPlaylist net rt3 with
      | (rt4, .rejected reason) => ({ rt4 with unhandled := rt4.unhandled ++ [reason] }, none)
      | (rt4, _) => (rt4, none)

/-! ## Click dispatch -/

/-- The body of a registered listener, run for a click with the given target on a
page whose panel element is `songsTabRNR`. -/
def runHandler (songsTabRNR : Element) (h : Handler) (target : Element) (p : Panel) : Panel :=
  match h with
  | .onOpenTriggered => onOpenTriggered p
  | .onCloseTriggered => onCloseTriggered p
  | .onOutsideClick => onOutsideClick songsTabRNR target p

/-- The listeners registered on one stop of a click, in registration order. -/
def listenersAt (listeners : List (ListenerTarget × Handler)) (stop : ListenerTarget) :
    List Handler :=
  (listeners.filter (fun r => decide (r.1 = stop))).map (fun r => r.2)

/-- The stops of a click on an element, in the order the event reaches them: the
clicked element, its ancestors from the nearest to the root, and the window.
The script registers no capturing listener and never stops the propagation; the
document node between the root and the window, on which the script registers
nothing, is left out. -/
def eventPath (doc : Document) (target : Element) : List ListenerTarget :=
  (target :: ancestors doc target).map ListenerTarget.element ++ [ListenerTarget.window]

/-- A click on an element: at every stop of the event path the listeners
registered there run in registration order, every one of them with the clicked
element as `e.target`. -/
def dispatchClick (songsTabRNR : Element) (listeners : List (ListenerTarget × Handler))
    (doc : Document) (target : Element) (p : Panel) : Panel :=
  (eventPath doc target).foldl
    (fun q stop =>
      (listenersAt listeners stop).foldl (fun r h => runHandler songsTabRNR h target r) q) p

/-- A sequence of clicks, oldest first. -/
def dispatchClicks (songsTabRNR : Element) (listeners : List (ListenerTarget × Handler))
    (doc : Document) (p : Panel) (targets : List Element) : Panel :=
  targets.foldl (fun q t => dispatchClick songsTabRNR listeners doc t q) p

/-- What the two button listeners make of the panel when a click passes an
element: the open listener on the open button, the close listener on the close
button, nothing elsewhere. -/
def bubbleStep (openBtn closeBtn e : Element) (q : Panel) : Panel :=
  if e = openBtn then onOpenTriggered q
  else if e = closeBtn then onCloseTriggered q
  else q

/-! ## Sample environments -/

/-- A page whose body holds the open button and the panel; the panel holds a
content box with the close button and the song list. -/
def samplePage : Document :=
  .mk ⟨10, ""⟩ [.mk ⟨0, ""⟩
    [.mk ⟨2, "RockNRollPlaylist"⟩ [],
     .mk ⟨1, "RockNRollSongs"⟩ [.mk ⟨5, ""⟩
       [.mk ⟨3, "closeBtn"⟩ [], .mk ⟨4, "songList"⟩ []]]]]

/-- A page with neither button. -/
def barePage : Document :=
  .mk ⟨10, ""⟩ [.mk ⟨0, ""⟩ [.mk ⟨1, "RockNRollSongs"⟩ []]]

/-- A page with the open button and no close button. -/
def pageWithoutClose : Document :=
  .mk ⟨10, ""⟩ [.mk ⟨0, ""⟩ [.mk ⟨2, "RockNRollPlaylist"⟩ [], .mk ⟨1, "RockNRollSongs"⟩ []]]

/-- A page whose close control sits inside the open control, next to the panel. -/
def closeInsideOpenPage : Document :=
  .mk ⟨10, ""⟩ [.mk ⟨0, ""⟩
    [.mk ⟨2, "RockNRollPlaylist"⟩ [.mk ⟨3, "closeBtn"⟩ []],
     .mk ⟨1, "RockNRollSongs"⟩ [.mk ⟨4, "songList"⟩ []]]]

/-- A page whose open control sits inside the close control, next to the panel. -/
def openInsideClosePage : Document :=
  .mk ⟨10, ""⟩ [.mk ⟨0, ""⟩
    [.mk ⟨3, "closeBtn"⟩ [.mk ⟨2, "RockNRollPlaylist"⟩ []],
     .mk ⟨1, "RockNRollSongs"⟩ [.mk ⟨4, "songList"⟩ []]]]

/-- A backend that never answers. -/
def silentNetwork : Network := fun _ => .pending

/-- The listing with the single entry `a.mp3`. -/
def sampleFiles : JSValue :=
  .array [.object [("name", .string "a.mp3"), ("url", .string "http://x/a.mp3")]]

/-- A backend that answers every request with a body whose `files` field holds the
sample listing. -/
def listingNetwork : Network := fun _ =>
  .fulfilled ⟨.fulfilled (.object [("files", sampleFiles)])⟩

/-- A backend that cannot be reached. -/
def downNetwork : Network := fun _ => .rejected ⟨"TypeError", "Failed to fetch"⟩

/-- A backend that answers with a body that is not JSON. -/
def htmlNetwork : Network := fun _ =>
  .fulfilled ⟨.rejected ⟨"SyntaxError", "Unexpected token < in JSON at position 0"⟩⟩

/-! ## Lemmas on event sequences -/

theorem run_nil (el : Element) (p : Panel) : run el p [] = p := rfl

theorem run_snoc (el : Element) (p : Panel) (evs : List Event) (e : Event) :
    run el p (evs ++ [e]) = step el (run el p evs) e := by
  simp [run, List.foldl_append]

theorem lastRelevant_snoc (el : Element) (evs : List Event) (e : Event) :
    lastRelevant el (evs ++ [e]) =
      if isRelevant el e then some e else lastRelevant el evs := by
  unfold lastRelevant
  by_cases h : isRelevant el e = true
  · simp [List.filter_append, h]
  · simp [List.filter_append, h]

theorem step_irrelevant (el : Element) (p : Panel) (e : Event)
    (h : isRelevant el e = false) : step el p e = p := by
  cases e with
  | openTrigger => simp [isRelevant] at h
  | closeTrigger => simp [isRelevant] at h
  | outsideClick t =>
    have ht : t ≠ el := by simpa [isRelevant] using h
    simp [step, onOutsideClick, ht]

theorem step_relevant (el : Element) (p : Panel) (e : Event)
    (h : isRelevant el e = true) :
    step el p e = if e = .openTrigger then ⟨"flex"⟩ else ⟨"none"⟩ := by
  cases e with
  | openTrigger => simp [step, onOpenTriggered]
  | closeTrigger => simp [step, onCloseTriggered]
  | outsideClick t =>
    have ht : t = el := by simpa [isRelevant] using h
    simp [step, onOutsideClick, ht]

/-- The panel after a sequence is decided by the most recent relevant event;
without one it is the panel the sequence started from. -/
theorem run_eq_of_lastRelevant (el : Element) (p0 : Panel) (evs : List Event) :
    run el p0 evs =
      match lastRelevant el evs with
      | none => p0
      | some e => if e = .openTrigger then ⟨"flex"⟩ else ⟨"none"⟩ := by
  induction evs using List.reverseRecOn with
  | nil => rfl
  | append_singleton l a ih =>
    rw [run_snoc, lastRelevant_snoc]
    by_cases h : isRelevant el a = true
    · simp [h, step_relevant el _ a h]
    · have h2 : isRelevant el a = false := by simpa using h
      simp [h2, step_irrelevant el _ a h2, ih]

theorem lastRelevant_eq_none_iff (el : Element) (evs : List Event) :
    lastRelevant el evs = none ↔ ∀ e ∈ evs, isRelevant el e = false := by
  unfold lastRelevant
  rw [List.getLast?_eq_none_iff, List.filter_eq_nil_iff]
  simp

/-! ## Lemmas on the loader and on script evaluation -/

theorem getElementById_id (doc : Document) (i : String) (e : Element)
    (h : getElementById doc i = some e) : e.id = i := by
  unfold getElementById at h
  have := List.find?_some h
  simpa using this

/-- Lookups of different ids give different elements. -/
theorem getElementById_ne (doc : Document) (i j : String) (a b : Element)
    (hij : i ≠ j) (ha : getElementById doc i = some a) (hb : getElementById doc j = some b) :
    a ≠ b := by
  intro hab
  apply hij
  rw [← getElementById_id doc i a ha, ← getElementById_id doc j b hb, hab]

/-- The effects of one run of `loadPlaylist` on the runtime: the listeners and the
unhandled rejections are untouched and exactly one request is appended. -/
theorem loadPlaylist_effects (net : Network) (rt : Runtime) :
    (loadPlaylist net rt).1.listeners = rt.listeners ∧
    (loadPlaylist net rt).1.unhandled = rt.unhandled ∧
    (loadPlaylist net rt).1.requests =
      rt.requests ++ [⟨"GET", "/api/files?folderId=" ++ "YOUR_FOLDER_ID" ++ "&audioOnly=true"⟩] := by
  unfold loadPlaylist fetch
  simp only
  generalize net _ = r
  cases r with
  | pending => exact ⟨rfl, rfl, rfl⟩
  | rejected reason => exact ⟨rfl, rfl, rfl⟩
  | fulfilled res =>
    simp only
    cases res.json with
    | pending => exact ⟨rfl, rfl, rfl⟩
    | rejected reason => exact ⟨rfl, rfl, rfl⟩
    | fulfilled data =>
      simp only
      cases getProperty data "files" with
      | error reason => exact ⟨rfl, rfl, rfl⟩
      | ok files => exact ⟨rfl, rfl, rfl⟩

/-- On a page that has both buttons the evaluation completes, and what it leaves
is the runtime of one run of `loadPlaylist` started with the three listeners
registered, up to the record of an unhandled rejection. -/
theorem script_of_buttons (doc : Document) (net : Network) (rt : Runtime)
    (openBtn closeBtn : Element)
    (hO : getElementById doc "RockNRollPlaylist" = some openBtn)
    (hC : getElementById doc "closeBtn" = some closeBtn) :
    (script doc net rt).2 = none ∧
    (script doc net rt).1.listeners =
      rt.listeners ++ [(.element openBtn, .onOpenTriggered),
        (.element closeBtn, .onCloseTriggered), (.window, .onOutsideClick)] ∧
    (script doc net rt).1.requests = (loadPlaylist net rt).1.requests ∧
    (script doc net rt).1.console = (loadPlaylist net rt).1.console := by
  unfold script
  simp only [hO, hC]
  have hl := loadPlaylist_effects net
    (addEventListener .window .onOutsideClick
      (addEventListener (.element closeBtn) .onCloseTriggered
        (addEventListener (.element openBtn) .onOpenTriggered rt)))
  have hr := loadPlaylist_effects net rt
  have hc : (loadPlaylist net
      (addEventListener .window .onOutsideClick
        (addEventListener (.element closeBtn) .onCloseTriggered
          (addEventListener (.element openBtn) .onOpenTriggered rt)))).1.console =
      (loadPlaylist net rt).1.console := by
    unfold loadPlaylist fetch
    simp only
    generalize net _ = r
    cases r with
    | pending => rfl
    | rejected reason => rfl
    | fulfilled res =>
      simp only
      cases res.json with
      | pending => rfl
      | rejected reason => rfl
      | fulfilled data =>
        simp only
        cases getProperty data "files" with
        | error reason => rfl
        | ok files => rfl
  generalize loadPlaylist net
    (addEventListener .window .onOutsideClick
      (addEventListener (.element closeBtn) .onCloseTriggered
        (addEventListener (.element openBtn) .onOpenTriggered rt))) = out at hl hc ⊢
  obtain ⟨rt4, r⟩ := out
  simp only at hl hc
  cases r with
  | pending =>
    refine ⟨rfl, ?_, ?_, ?_⟩
    · simp [hl.1, addEventListener]
    · simp [hl.2.2, hr.2.2, addEventListener]
    · exact hc
  | rejected reason =>
    refine ⟨rfl, ?_, ?_, ?_⟩
    · simp [hl.1, addEventListener]
    · simp [hl.2.2, hr.2.2, addEventListener]
    · exact hc
  | fulfilled v =>
    refine ⟨rfl, ?_, ?_, ?_⟩
    · simp [hl.1, addEventListener]
    · simp [hl.2.2, hr.2.2, addEventListener]
    · exact hc

/-- On a page without the open button the evaluation throws at the first
registration, before `loadPlaylist` is called: no request is sent. -/
theorem script_without_open_button (doc : Document) (net : Network) (rt : Runtime)
    (hO : getElementById doc "RockNRollPlaylist" = none) :
    script doc net rt = (rt, some (nullReceiver "addEventListener")) := by
  unfold script
  simp only [hO]

/-- A rejection of the promise that `loadPlaylist` returned is handled by nobody:
the script records it as unhandled. -/
theorem script_unhandled_rejection (doc : Document) (net : Network) (rt : Runtime)
    (openBtn closeBtn : Element) (reason : JSError)
    (hO : getElementById doc "RockNRollPlaylist" = some openBtn)
    (hC : getElementById doc "closeBtn" = some closeBtn)
    (hr : net ⟨"GET", "/api/files?folderId=YOUR_FOLDER_ID&audioOnly=true"⟩ = .rejected reason) :
    (script doc net rt).1.unhandled = rt.unhandled ++ [reason] := by
  have hurl : "/api/files?folderId=" ++ "YOUR_FOLDER_ID" ++ "&audioOnly=true" =
      "/api/files?folderId=YOUR_FOLDER_ID&audioOnly=true" := by decide
  unfold script loadPlaylist fetch
  simp only [hO, hC, hurl, hr, addEventListener]

/-- On a page with the open button and without the close button the evaluation
throws at the second registration, before `loadPlaylist` is called. -/
theorem script_without_close_button (doc : Document) (net : Network) (rt : Runtime)
    (openBtn : Element)
    (hO : getElementById doc "RockNRollPlaylist" = some openBtn)
    (hC : getElementById doc "closeBtn" = none) :
    script doc net rt =
      (addEventListener (.element openBtn) .onOpenTriggered rt,
        some (nullReceiver "addEventListener")) := by
  unfold script
  simp only [hO, hC]

/-! ## Lemmas on click dispatch -/

theorem listenersAt_registered_element (openBtn closeBtn e : Element) :
    listenersAt [(.element openBtn, .onOpenTriggered), (.element closeBtn, .onCloseTriggered),
        (.window, .onOutsideClick)] (.element e) =
      (if openBtn = e then [Handler.onOpenTriggered] else []) ++
        (if closeBtn = e then [Handler.onCloseTriggered] else []) := by
  unfold listenersAt
  by_cases ho : openBtn = e <;> by_cases hc : closeBtn = e <;>
    simp [List.filter, ho, hc]

theorem listenersAt_registered_window (openBtn closeBtn : Element) :
    listenersAt [(.element openBtn, .onOpenTriggered), (.element closeBtn, .onCloseTriggered),
        (.window, .onOutsideClick)] .window = [Handler.onOutsideClick] := by
  simp [listenersAt, List.filter]

/-- A click dispatched over the three listeners the script registers, on a page
whose buttons are two elements: the button listeners run on the way up, and
the window listener runs last. -/
theorem dispatchClick_registered (songsTabRNR openBtn closeBtn : Element)
    (hne : openBtn ≠ closeBtn) (doc : Document) (target : Element) (p : Panel) :
    dispatchClick songsTabRNR
        [(.element openBtn, .onOpenTriggered), (.element closeBtn, .onCloseTriggered),
          (.window, .onOutsideClick)] doc target p =
      onOutsideClick songsTabRNR target
        ((target :: ancestors doc target).foldl
          (fun q e => bubbleStep openBtn closeBtn e q) p) := by
  have hfun : (fun (q : Panel) (e : Element) =>
      (listenersAt [(.element openBtn, .onOpenTriggered), (.element closeBtn, .onCloseTriggered),
          (.window, .onOutsideClick)] (.element e)).foldl
        (fun r h => runHandler songsTabRNR h target r) q) =
      fun q e => bubbleStep openBtn closeBtn e q := by
    funext q e
    rw [listenersAt_registered_element]
    unfold bubbleStep
    by_cases ho : openBtn = e
    · have hc : ¬ closeBtn = e := fun h => hne (ho.trans h.symm)
      subst ho
      simp [hc, runHandler]
    · by_cases hc : closeBtn = e
      · subst hc
        simp [ho, runHandler, Ne.symm ho]
      · simp [ho, hc, Ne.symm ho, Ne.symm hc]
  unfold dispatchClick eventPath
  rw [List.foldl_append, List.foldl_map, hfun]
  simp [listenersAt_registered_window, runHandler]

theorem foldl_bubbleStep_snoc (openBtn closeBtn e : Element) (l : List Element) (p : Panel) :
    (l ++ [e]).foldl (fun q x => bubbleStep openBtn closeBtn x q) p =
      bubbleStep openBtn closeBtn e (l.foldl (fun q x => bubbleStep openBtn closeBtn x q) p) := by
  simp [List.foldl_append]

/-- A click that passes the open button and never the close button leaves
`'flex'` behind the button listeners. -/
theorem foldl_bubbleStep_open (openBtn closeBtn : Element) (path : List Element) (p : Panel)
    (hc : closeBtn ∉ path) (ho : openBtn ∈ path) :
    path.foldl (fun q x => bubbleStep openBtn closeBtn x q) p = ⟨"flex"⟩ := by
  induction path using List.reverseRecOn with
  | nil => simp at ho
  | append_singleton l a ih =>
    rw [foldl_bubbleStep_snoc]
    have hcl : closeBtn ∉ l := fun h => hc (List.mem_append_left _ h)
    have hca : a ≠ closeBtn := fun h => hc (by simp [h])
    by_cases hao : a = openBtn
    · simp [bubbleStep, hao, onOpenTriggered]
    · have hol : openBtn ∈ l := by
        rcases List.mem_append.mp ho with h | h
        · exact h
        · exact absurd (List.mem_singleton.mp h).symm hao
      rw [ih hcl hol]
      simp [bubbleStep, hao, hca]

/-- A click that passes the close button and never the open button leaves
`'none'` behind the button listeners. -/
theorem foldl_bubbleStep_close (openBtn closeBtn : Element) (path : List Element) (p : Panel)
    (ho : openBtn ∉ path) (hc : closeBtn ∈ path) :
    path.foldl (fun q x => bubbleStep openBtn closeBtn x q) p = ⟨"none"⟩ := by
  induction path using List.reverseRecOn with
  | nil => simp at hc
  | append_singleton l a ih =>
    rw [foldl_bubbleStep_snoc]
    have hol : openBtn ∉ l := fun h => ho (List.mem_append_left _ h)
    have hoa : a ≠ openBtn := fun h => ho (by simp [h])
    by_cases hac : a = closeBtn
    · simp [bubbleStep, hac, if_neg hoa, onCloseTriggered]
      intro h
      exact absurd (hac.trans h) hoa
    · have hcl : closeBtn ∈ l := by
        rcases List.mem_append.mp hc with h | h
        · exact h
        · exact absurd (List.mem_singleton.mp h).symm hac
      rw [ih hol hcl]
      simp [bubbleStep, hac, hoa]

/-! ## The panel controller -/

/-- C4: whatever the panel was before, the open listener leaves it visible, with
display `'flex'`; the result does not depend on the prior state, and running the
listener twice gives what running it once gives. -/
theorem onOpenTriggered_visible (p q : Panel) :
    (onOpenTriggered p).visible ∧ (onOpenTriggered p).display = "flex" ∧
      onOpenTriggered p = onOpenTriggered q ∧
      onOpenTriggered (onOpenTriggered p) = onOpenTriggered p :=
  ⟨rfl, rfl, rfl, rfl⟩

/-- C5: whatever the panel was before, the close listener leaves it hidden, with
display `'none'`, and the result does not depend on the prior state. -/
theorem onCloseTriggered_hidden (p q : Panel) :
    (onCloseTriggered p).hidden ∧ (onCloseTriggered p).display = "none" ∧
      onCloseTriggered p = onCloseTriggered q :=
  ⟨rfl, rfl, rfl⟩

/-- C2: the window listener hides the panel when the click target is the panel
container itself and leaves the panel as it was for every other target; so a
click on inner content (an element other than the container) never turns a
visible panel into a hidden one. -/
theorem onOutsideClick_spec (songsTabRNR target : Element) (p : Panel) :
    (target = songsTabRNR → (onOutsideClick songsTabRNR target p).hidden) ∧
    (target ≠ songsTabRNR → onOutsideClick songsTabRNR target p = p) ∧
    (target ≠ songsTabRNR → p.visible →
      (onOutsideClick songsTabRNR target p).visible ∧
        ¬ (onOutsideClick songsTabRNR target p).hidden) := by
  refine ⟨fun h => ?_, fun h => ?_, fun h hv => ?_⟩
  · simp [onOutsideClick, h, Panel.hidden]
  · simp [onOutsideClick, h]
  · have hp : onOutsideClick songsTabRNR target p = p := by simp [onOutsideClick, h]
    rw [hp]
    refine ⟨hv, fun hh => ?_⟩
    unfold Panel.visible at hv
    unfold Panel.hidden at hh
    rw [hv] at hh
    exact absurd hh (by decide)

/-- Witness for C2: a click on the container hides a visible panel, a click on the
song list inside it leaves the panel visible. -/
theorem onOutsideClick_spec_witness :
    (onOutsideClick ⟨1, "RockNRollSongs"⟩ ⟨1, "RockNRollSongs"⟩ ⟨"flex"⟩).hidden ∧
    onOutsideClick ⟨1, "RockNRollSongs"⟩ ⟨4, "songList"⟩ ⟨"flex"⟩ = ⟨"flex"⟩ ∧
    ((onOutsideClick ⟨1, "RockNRollSongs"⟩ ⟨4, "songList"⟩ ⟨"flex"⟩).visible ∧
      ¬ (onOutsideClick ⟨1, "RockNRollSongs"⟩ ⟨4, "songList"⟩ ⟨"flex"⟩).hidden) :=
  ⟨(onOutsideClick_spec ⟨1, "RockNRollSongs"⟩ ⟨1, "RockNRollSongs"⟩ ⟨"flex"⟩).1 rfl,
   (onOutsideClick_spec ⟨1, "RockNRollSongs"⟩ ⟨4, "songList"⟩ ⟨"flex"⟩).2.1 (by decide),
   (onOutsideClick_spec ⟨1, "RockNRollSongs"⟩ ⟨4, "songList"⟩ ⟨"flex"⟩).2.2 (by decide) rfl⟩

/-- C1, as stated, fails before the first relevant event.  The script assigns no
display when it starts, so with no relevant event the panel is what the page
made it: with an empty inline display it is not hidden, and with an inline
display of `'flex'` it is visible although no open trigger occurred. -/
theorem run_no_relevant_event_not_hidden :
    ¬ (lastRelevant ⟨1, "RockNRollSongs"⟩ [] ≠ some .openTrigger →
        (run ⟨1, "RockNRollSongs"⟩ ⟨""⟩ []).hidden) ∧
    ¬ ((run ⟨1, "RockNRollSongs"⟩ ⟨"flex"⟩ [.outsideClick ⟨0, ""⟩]).visible ↔
        lastRelevant ⟨1, "RockNRollSongs"⟩ [.outsideClick ⟨0, ""⟩] = some .openTrigger) := by
  decide

/-- C1, amended: once a sequence contains a relevant event, the panel is visible
if and only if the most recent relevant event was an open trigger, and hidden
otherwise; a sequence with no relevant event leaves the panel in its page-load
state. -/
theorem run_visible_iff_lastRelevant_open (songsTabRNR : Element) (p0 : Panel)
    (evs : List Event) :
    (lastRelevant songsTabRNR evs ≠ none →
      ((run songsTabRNR p0 evs).visible ↔ lastRelevant songsTabRNR evs = some .openTrigger) ∧
      (lastRelevant songsTabRNR evs ≠ some .openTrigger → (run songsTabRNR p0 evs).hidden)) ∧
    (lastRelevant songsTabRNR evs = none → run songsTabRNR p0 evs = p0) := by
  have key := run_eq_of_lastRelevant songsTabRNR p0 evs
  cases hl : lastRelevant songsTabRNR evs with
  | none => simp [hl] at key; simp [key]
  | some e =>
    rw [hl] at key
    by_cases he : e = .openTrigger
    · subst he
      simp at key
      simp [key, Panel.visible]
    · simp [he] at key
      simp [key, Panel.visible, Panel.hidden, he]

/-- Witness for C1: open, a click on inner content, close, a click on the page
body, open: the last relevant event is the open trigger and the panel is
visible; a click on the body alone leaves the page-load state. -/
theorem run_visible_iff_lastRelevant_open_witness :
    (run ⟨1, "RockNRollSongs"⟩ ⟨""⟩
      [.openTrigger, .outsideClick ⟨4, "songList"⟩, .closeTrigger, .outsideClick ⟨0, ""⟩,
        .openTrigger]).visible ∧
    run ⟨1, "RockNRollSongs"⟩ ⟨""⟩ [.outsideClick ⟨0, ""⟩] = ⟨""⟩ :=
  ⟨(((run_visible_iff_lastRelevant_open ⟨1, "RockNRollSongs"⟩ ⟨""⟩
      [.openTrigger, .outsideClick ⟨4, "songList"⟩, .closeTrigger, .outsideClick ⟨0, ""⟩,
        .openTrigger]).1 (by decide)).1).2 (by decide),
   (run_visible_iff_lastRelevant_open ⟨1, "RockNRollSongs"⟩ ⟨""⟩ [.outsideClick ⟨0, ""⟩]).2
      (by decide)⟩

/-- C6, as stated, fails in the page-load state: the script assigns no display
when it starts, so on a page whose panel has an empty inline display the state
before any event, and after a click that misses the container, holds neither
`'flex'` nor `'none'`. -/
theorem run_display_at_load_neither :
    ¬ ((run ⟨1, "RockNRollSongs"⟩ ⟨""⟩ []).display = "flex" ∨
        (run ⟨1, "RockNRollSongs"⟩ ⟨""⟩ []).display = "none") ∧
    ¬ ((run ⟨1, "RockNRollSongs"⟩ ⟨""⟩ [.outsideClick ⟨0, ""⟩]).display = "flex" ∨
        (run ⟨1, "RockNRollSongs"⟩ ⟨""⟩ [.outsideClick ⟨0, ""⟩]).display = "none") := by
  decide

/-- C6, amended: in every state reached from page load, the display is `'flex'` or
`'none'` as soon as a relevant event has occurred; until then it is the display
the page load gave the panel, so it is one of the two values in every reachable
state when it was one of them at page load. -/
theorem run_display_two_valued (songsTabRNR : Element) (p0 : Panel) (evs : List Event) :
    ((∃ e ∈ evs, isRelevant songsTabRNR e = true) →
      (run songsTabRNR p0 evs).display = "flex" ∨ (run songsTabRNR p0 evs).display = "none") ∧
    ((∀ e ∈ evs, isRelevant songsTabRNR e = false) →
      (run songsTabRNR p0 evs).display = p0.display) ∧
    ((p0.display = "flex" ∨ p0.display = "none") →
      (run songsTabRNR p0 evs).display = "flex" ∨ (run songsTabRNR p0 evs).display = "none") := by
  have key := run_eq_of_lastRelevant songsTabRNR p0 evs
  have hnone := lastRelevant_eq_none_iff songsTabRNR evs
  cases hl : lastRelevant songsTabRNR evs with
  | none =>
    rw [hl] at key
    simp only at key
    have hall := hnone.mp hl
    refine ⟨fun ⟨e, he, hr⟩ => ?_, fun _ => by rw [key], fun h => by rw [key]; exact h⟩
    rw [hall e he] at hr
    exact absurd hr (by decide)
  | some e =>
    rw [hl] at key
    simp only at key
    have hd : (run songsTabRNR p0 evs).display = "flex" ∨
        (run songsTabRNR p0 evs).display = "none" := by
      by_cases he : e = .openTrigger
      · left; rw [key, if_pos he]
      · right; rw [key, if_neg he]
    refine ⟨fun _ => hd, fun hall => ?_, fun _ => hd⟩
    rw [hnone.mpr hall] at hl
    exact absurd hl (by simp)

/-- Witness for C6: after an open trigger the display is one of the two values, and
a click on the page body alone keeps the page-load display. -/
theorem run_display_two_valued_witness :
    ((run ⟨1, "RockNRollSongs"⟩ ⟨""⟩ [.outsideClick ⟨0, ""⟩, .openTrigger]).display = "flex" ∨
      (run ⟨1, "RockNRollSongs"⟩ ⟨""⟩ [.outsideClick ⟨0, ""⟩, .openTrigger]).display = "none") ∧
    (run ⟨1, "RockNRollSongs"⟩ ⟨""⟩ [.outsideClick ⟨0, ""⟩]).display = "" :=
  ⟨(run_display_two_valued ⟨1, "RockNRollSongs"⟩ ⟨""⟩
      [.outsideClick ⟨0, ""⟩, .openTrigger]).1 ⟨.openTrigger, by decide, by decide⟩,
   (run_display_two_valued ⟨1, "RockNRollSongs"⟩ ⟨""⟩ [.outsideClick ⟨0, ""⟩]).2.1 (by decide)⟩

/-! ## Physical clicks -/

/-- C10, as stated, fails when one button lies inside the other, both being
distinct from the panel container: the click on the inner button goes on to the
outer button, whose listener undoes it.  With the close button inside the open
button a click on close leaves an open panel open, and with the open button
inside the close button a click on open leaves a closed panel closed. -/
theorem dispatchClick_nested_buttons_undone :
    (getElementById closeInsideOpenPage "RockNRollPlaylist" = some ⟨2, "RockNRollPlaylist"⟩ ∧
      getElementById closeInsideOpenPage "closeBtn" = some ⟨3, "closeBtn"⟩ ∧
      (⟨2, "RockNRollPlaylist"⟩ : Element) ≠ ⟨1, "RockNRollSongs"⟩ ∧
      (⟨3, "closeBtn"⟩ : Element) ≠ ⟨1, "RockNRollSongs"⟩ ∧
      ¬ (dispatchClick ⟨1, "RockNRollSongs"⟩
          (script closeInsideOpenPage silentNetwork .initial).1.listeners closeInsideOpenPage
          ⟨3, "closeBtn"⟩ ⟨"flex"⟩).hidden) ∧
    (getElementById openInsideClosePage "RockNRollPlaylist" = some ⟨2, "RockNRollPlaylist"⟩ ∧
      getElementById openInsideClosePage "closeBtn" = some ⟨3, "closeBtn"⟩ ∧
      ¬ (dispatchClick ⟨1, "RockNRollSongs"⟩
          (script openInsideClosePage silentNetwork .initial).1.listeners openInsideClosePage
          ⟨2, "RockNRollPlaylist"⟩ ⟨"none"⟩).visible) := by
  decide

/-- C10, amended: a click on a button runs the button listener and, last, the
window listener with the button as target.  When the two buttons are not the
panel container and neither lies inside the other, a click on the open button
ends with the panel visible and a click on the close button ends with the panel
hidden, whatever the panel was before; the window listener is delivered all the
same, as a click on the panel container ends with the panel hidden. -/
theorem dispatchClick_button_not_undone (doc : Document) (net : Network)
    (songsTabRNR openBtn closeBtn : Element)
    (hO : getElementById doc "RockNRollPlaylist" = some openBtn)
    (hC : getElementById doc "closeBtn" = some closeBtn)
    (hOP : openBtn ≠ songsTabRNR) (hCP : closeBtn ≠ songsTabRNR)
    (hCO : closeBtn ∉ ancestors doc openBtn) (hOC : openBtn ∉ ancestors doc closeBtn)
    (p : Panel) :
    dispatchClick songsTabRNR (script doc net .initial).1.listeners doc openBtn p =
      onOutsideClick songsTabRNR openBtn (onOpenTriggered p) ∧
    dispatchClick songsTabRNR (script doc net .initial).1.listeners doc closeBtn p =
      onOutsideClick songsTabRNR closeBtn (onCloseTriggered p) ∧
    (dispatchClick songsTabRNR (script doc net .initial).1.listeners doc openBtn p).visible ∧
    (dispatchClick songsTabRNR (script doc net .initial).1.listeners doc closeBtn p).hidden ∧
    (dispatchClick songsTabRNR (script doc net .initial).1.listeners doc songsTabRNR p).hidden := by
  have hls : (script doc net .initial).1.listeners =
      [(.element openBtn, .onOpenTriggered), (.element closeBtn, .onCloseTriggered),
        (.window, .onOutsideClick)] :=
    (script_of_buttons doc net .initial openBtn closeBtn hO hC).2.1
  have hne : openBtn ≠ closeBtn := getElementById_ne doc _ _ _ _ (by decide) hO hC
  have hopen : (openBtn :: ancestors doc openBtn).foldl
      (fun q e => bubbleStep openBtn closeBtn e q) p = ⟨"flex"⟩ :=
    foldl_bubbleStep_open openBtn closeBtn _ p
      (by simp [Ne.symm hne, hCO]) (by simp)
  have hclose : (closeBtn :: ancestors doc closeBtn).foldl
      (fun q e => bubbleStep openBtn closeBtn e q) p = ⟨"none"⟩ :=
    foldl_bubbleStep_close openBtn closeBtn _ p
      (by simp [hne, hOC]) (by simp)
  rw [hls, dispatchClick_registered _ _ _ hne, dispatchClick_registered _ _ _ hne,
    dispatchClick_registered _ _ _ hne, hopen, hclose]
  simp [onOutsideClick, hOP, hCP, onOpenTriggered, onCloseTriggered, Panel.visible,
    Panel.hidden]

/-- Witness for C10 on the sample page, with the panel open before the click on the
close button and closed before the click on the open button. -/
theorem dispatchClick_button_not_undone_witness :
    (dispatchClick ⟨1, "RockNRollSongs"⟩ (script samplePage silentNetwork .initial).1.listeners
      samplePage ⟨2, "RockNRollPlaylist"⟩ ⟨"none"⟩).visible ∧
    (dispatchClick ⟨1, "RockNRollSongs"⟩ (script samplePage silentNetwork .initial).1.listeners
      samplePage ⟨3, "closeBtn"⟩ ⟨"flex"⟩).hidden ∧
    (dispatchClick ⟨1, "RockNRollSongs"⟩ (script samplePage silentNetwork .initial).1.listeners
      samplePage ⟨1, "RockNRollSongs"⟩ ⟨"flex"⟩).hidden :=
  ⟨(dispatchClick_button_not_undone samplePage silentNetwork ⟨1, "RockNRollSongs"⟩
      ⟨2, "RockNRollPlaylist"⟩ ⟨3, "closeBtn"⟩ (by decide) (by decide) (by decide) (by decide)
      (by decide) (by decide) ⟨"none"⟩).2.2.1,
   (dispatchClick_button_not_undone samplePage silentNetwork ⟨1, "RockNRollSongs"⟩
      ⟨2, "RockNRollPlaylist"⟩ ⟨3, "closeBtn"⟩ (by decide) (by decide) (by decide) (by decide)
      (by decide) (by decide) ⟨"flex"⟩).2.2.2.1,
   (dispatchClick_button_not_undone samplePage silentNetwork ⟨1, "RockNRollSongs"⟩
      ⟨2, "RockNRollPlaylist"⟩ ⟨3, "closeBtn"⟩ (by decide) (by decide) (by decide) (by decide)
      (by decide) (by decide) ⟨"flex"⟩).2.2.2.2⟩

/-- C3: on the sample page, from a page load with an empty inline display, the
click on the open button makes the panel visible and the following click on the
close button makes it hidden; after the next click on the open button, the click
on the document body, whose target is not the panel container, leaves the panel
visible.  The code does not hide it there, although the comment on the window
listener says a click anywhere else hides the songs. -/
theorem scenario_body_click_leaves_visible :
    (dispatchClicks ⟨1, "RockNRollSongs"⟩ (script samplePage silentNetwork .initial).1.listeners
      samplePage ⟨""⟩ [⟨2, "RockNRollPlaylist"⟩]).visible ∧
    (dispatchClicks ⟨1, "RockNRollSongs"⟩ (script samplePage silentNetwork .initial).1.listeners
      samplePage ⟨""⟩ [⟨2, "RockNRollPlaylist"⟩, ⟨3, "closeBtn"⟩]).hidden ∧
    (dispatchClicks ⟨1, "RockNRollSongs"⟩ (script samplePage silentNetwork .initial).1.listeners
      samplePage ⟨""⟩
      [⟨2, "RockNRollPlaylist"⟩, ⟨3, "closeBtn"⟩, ⟨2, "RockNRollPlaylist"⟩, ⟨0, ""⟩]).visible ∧
    ¬ (dispatchClicks ⟨1, "RockNRollSongs"⟩ (script samplePage silentNetwork .initial).1.listeners
      samplePage ⟨""⟩
      [⟨2, "RockNRollPlaylist"⟩, ⟨3, "closeBtn"⟩, ⟨2, "RockNRollPlaylist"⟩, ⟨0, ""⟩]).hidden := by
  decide

/-! ## The loader -/

/-- C7: when the fetch succeeds and the body parses to an object with a `files`
field, one run of `loadPlaylist` gives `console.log` exactly one value, the
value of that field as it is, and the promise fulfils. -/
theorem loadPlaylist_logs_files (net : Network) (rt : Runtime) (res : Response)
    (fields : List (String × JSValue)) (files : JSValue)
    (hfetch : net ⟨"GET", "/api/files?folderId=YOUR_FOLDER_ID&audioOnly=true"⟩ = .fulfilled res)
    (hjson : res.json = .fulfilled (.object fields))
    (hfiles : fields.lookup "files" = some files) :
    (loadPlaylist net rt).1.console = rt.console ++ [files] ∧
    (loadPlaylist net .initial).1.console = [files] ∧
    (loadPlaylist net rt).2 = .fulfilled .undefined := by
  have hurl : "/api/files?folderId=" ++ "YOUR_FOLDER_ID" ++ "&audioOnly=true" =
      "/api/files?folderId=YOUR_FOLDER_ID&audioOnly=true" := by decide
  unfold loadPlaylist fetch
  simp only [hurl, hfetch, hjson, getProperty, hfiles, Option.getD_some, consoleLog,
    Runtime.initial, List.nil_append, and_self]

/-- Witness for C7: the body with the single entry `a.mp3` is logged once, as it
is. -/
theorem loadPlaylist_logs_files_witness :
    (loadPlaylist listingNetwork .initial).1.console = [sampleFiles] :=
  (loadPlaylist_logs_files listingNetwork .initial
    ⟨.fulfilled (.object [("files", sampleFiles)])⟩ [("files", sampleFiles)] sampleFiles
    rfl rfl rfl).2.1

/-- C8, as stated, fails on a page that lacks a button: the registration on the
missing button throws, the evaluation ends before the call of `loadPlaylist`,
and no request is sent, whether it is the open button or the close button that
is missing. -/
theorem script_without_buttons_sends_nothing :
    ((script barePage listingNetwork .initial).1.requests = [] ∧
      (script barePage listingNetwork .initial).2 = some (nullReceiver "addEventListener")) ∧
    ((script pageWithoutClose listingNetwork .initial).1.requests = [] ∧
      (script pageWithoutClose listingNetwork .initial).2 =
        some (nullReceiver "addEventListener")) := by
  decide

/-- C8, amended: on a page that has both buttons, evaluating the script completes
and runs `loadPlaylist` once: it leaves exactly one request, a `GET` for
`/api/files?folderId=` followed by `YOUR_FOLDER_ID` followed by
`&audioOnly=true`, and the console of one run.  One run of `loadPlaylist` adds
exactly that one request whatever the backend answers. -/
theorem script_issues_one_request (doc : Document) (net : Network)
    (openBtn closeBtn : Element)
    (hO : getElementById doc "RockNRollPlaylist" = some openBtn)
    (hC : getElementById doc "closeBtn" = some closeBtn) :
    (script doc net .initial).2 = none ∧
    (script doc net .initial).1.requests =
      [⟨"GET", "/api/files?folderId=" ++ "YOUR_FOLDER_ID" ++ "&audioOnly=true"⟩] ∧
    (script doc net .initial).1.console = (loadPlaylist net .initial).1.console ∧
    (∀ rt : Runtime, (loadPlaylist net rt).1.requests =
      rt.requests ++ [⟨"GET", "/api/files?folderId=" ++ "YOUR_FOLDER_ID" ++ "&audioOnly=true"⟩]) := by
  have h := script_of_buttons doc net .initial openBtn closeBtn hO hC
  refine ⟨h.1, ?_, h.2.2.2, fun rt => (loadPlaylist_effects net rt).2.2⟩
  rw [h.2.2.1, (loadPlaylist_effects net .initial).2.2]
  rfl

/-- Witness for C8: on the sample page one request is sent, whether the backend
answers with a listing or cannot be reached. -/
theorem script_issues_one_request_witness :
    (script samplePage listingNetwork .initial).1.requests =
      [⟨"GET", "/api/files?folderId=YOUR_FOLDER_ID&audioOnly=true"⟩] ∧
    (script samplePage downNetwork .initial).1.requests =
      [⟨"GET", "/api/files?folderId=YOUR_FOLDER_ID&audioOnly=true"⟩] :=
  ⟨(script_issues_one_request samplePage listingNetwork ⟨2, "RockNRollPlaylist"⟩ ⟨3, "closeBtn"⟩
      (by decide) (by decide)).2.1,
   (script_issues_one_request samplePage downNetwork ⟨2, "RockNRollPlaylist"⟩ ⟨3, "closeBtn"⟩
      (by decide) (by decide)).2.1⟩

/-- C9: when the fetch rejects, or the body fails to parse, the promise of
`loadPlaylist` is rejected with that same reason and nothing is given to
`console.log`. -/
theorem loadPlaylist_rejection_propagates (net : Network) (rt : Runtime) (reason : JSError) :
    (net ⟨"GET", "/api/files?folderId=YOUR_FOLDER_ID&audioOnly=true"⟩ = .rejected reason →
      (loadPlaylist net rt).2 = .rejected reason ∧
        (loadPlaylist net rt).1.console = rt.console) ∧
    (∀ res : Response,
      net ⟨"GET", "/api/files?folderId=YOUR_FOLDER_ID&audioOnly=true"⟩ = .fulfilled res →
      res.json = .rejected reason →
      (loadPlaylist net rt).2 = .rejected reason ∧
        (loadPlaylist net rt).1.console = rt.console) := by
  have hurl : "/api/files?folderId=" ++ "YOUR_FOLDER_ID" ++ "&audioOnly=true" =
      "/api/files?folderId=YOUR_FOLDER_ID&audioOnly=true" := by decide
  refine ⟨fun hfetch => ?_, fun res hfetch hjson => ?_⟩
  · unfold loadPlaylist fetch
    simp only [hurl, hfetch, and_self]
  · unfold loadPlaylist fetch
    simp only [hurl, hfetch, hjson, and_self]

/-- Witness for C9: an unreachable backend and a body that is not JSON. -/
theorem loadPlaylist_rejection_propagates_witness :
    ((loadPlaylist downNetwork .initial).2 = .rejected ⟨"TypeError", "Failed to fetch"⟩ ∧
      (loadPlaylist downNetwork .initial).1.console = []) ∧
    ((loadPlaylist htmlNetwork .initial).2 =
        .rejected ⟨"SyntaxError", "Unexpected token < in JSON at position 0"⟩ ∧
      (loadPlaylist htmlNetwork .initial).1.console = []) :=
  ⟨(loadPlaylist_rejection_propagates downNetwork .initial
      ⟨"TypeError", "Failed to fetch"⟩).1 rfl,
   (loadPlaylist_rejection_propagates htmlNetwork .initial
      ⟨"SyntaxError", "Unexpected token < in JSON at position 0"⟩).2
      ⟨.rejected ⟨"SyntaxError", "Unexpected token < in JSON at position 0"⟩⟩ rfl rfl⟩

end Lyra
